import Mathlib

/-!
Verification of the hospital-waste audit dashboard (`src/app.py`).

The dashboard loads a CSV of waste records, derives a `Month` label and a
`Bin_Color` classification per record, filters by user-selected months and
departments, and renders KPIs, grouped charts and a CSV export.

Modelling conventions:
* a pandas dataframe is a `DataFrame`: a list of rows plus presence flags for
  the two optional columns (`Waste_Type`, `Bin_Color`); the other columns are
  always present per the spec's input contract;
* calendar dates are day ordinals (`Nat`); `Month` is the derived month-name
  string (`df['Date'].dt.strftime('%B')`), stored on the row;
* `Weight_kg` is an exact rational; pandas `mean`/`max` over an empty column
  yield float NaN, modelled as `none : Option ℚ`;
* pandas `Series.unique` (first-occurrence order) is `uniqueList`; sorting
  (`sort_values`, and the key-sorting pandas `groupby` performs) is the stable
  insertion sort `sortLe`.
-/

/-- Lexicographic strict order on character lists by code point, as Python
compares strings. -/
def listLexLt : List Char → List Char → Bool
  | _, [] => false
  | [], _ :: _ => true
  | a :: as, b :: bs =>
    if a.toNat < b.toNat then true
    else if b.toNat < a.toNat then false
    else listLexLt as bs

/-- `a ≤ b` on strings, by code-point lexicographic comparison. -/
def strLe (a b : String) : Bool := !(listLexLt b.data a.data)

/-- Distinct values of a list in first-occurrence order: pandas
`Series.unique`. -/
def uniqueList {α : Type} [DecidableEq α] : List α → List α
  | [] => []
  | a :: as => a :: (uniqueList as).filter (fun b => decide (b ≠ a))

/-- Insert `a` into `l` before the first element `b` with `le a b = true`. -/
def insertLe {α : Type} (le : α → α → Bool) (a : α) : List α → List α
  | [] => [a]
  | b :: bs => if le a b then a :: b :: bs else b :: insertLe le a bs

/-- Stable insertion sort, modelling pandas `sort_values` and the key order
of `groupby`. -/
def sortLe {α : Type} (le : α → α → Bool) : List α → List α
  | [] => []
  | a :: as => insertLe le a (sortLe le as)

theorem insertLe_perm {α : Type} (le : α → α → Bool) (a : α) (l : List α) :
    (insertLe le a l).Perm (a :: l) := by
  induction l with
  | nil => exact List.Perm.refl _
  | cons b bs ih =>
    unfold insertLe
    by_cases h : le a b = true
    · rw [if_pos h]
    · rw [if_neg h]
      exact (List.Perm.cons b ih).trans (List.Perm.swap a b bs)

theorem sortLe_perm {α : Type} (le : α → α → Bool) (l : List α) :
    (sortLe le l).Perm l := by
  induction l with
  | nil => exact List.Perm.refl _
  | cons a as ih =>
    exact (insertLe_perm le a (sortLe le as)).trans (List.Perm.cons a ih)

theorem mem_uniqueList {α : Type} [DecidableEq α] {a : α} {l : List α} :
    a ∈ uniqueList l ↔ a ∈ l := by
  induction l with
  | nil => simp [uniqueList]
  | cons b bs ih =>
    by_cases h : a = b
    · subst h
      simp [uniqueList]
    · simp [uniqueList, List.mem_filter, h, ih]

theorem nodup_uniqueList {α : Type} [DecidableEq α] (l : List α) :
    (uniqueList l).Nodup := by
  induction l with
  | nil => simp [uniqueList]
  | cons b bs ih =>
    refine List.Nodup.cons ?_ (List.Nodup.filter _ ih)
    intro hb
    have := (List.mem_filter.1 hb).2
    simp at this

/-! ## Data model -/

/-- One waste record (a dataframe row) after load-time `Month` derivation.
The `wasteType` and `binColor` fields carry the cell values of the optional
`Waste_Type` / `Bin_Color` columns; they are meaningful only when the
enclosing `DataFrame` has the corresponding presence flag set. -/
structure Row where
  date : Nat
  department : String
  weight : ℚ
  infectious : String
  wasteType : String
  month : String
  binColor : String
deriving Repr, DecidableEq

/-- A dataframe: rows plus presence flags for the two optional columns. -/
structure DataFrame where
  rows : List Row
  hasWasteType : Bool
  hasBinColor : Bool
deriving Repr, DecidableEq

/-! ## Classifier (`get_bin_color`, `src/app.py` lines 15-23) -/

/-- `leadsWith needle hay`: the char list `needle` is an initial segment of
`hay`. -/
def leadsWith : List Char → List Char → Bool
  | [], _ => true
  | _ :: _, [] => false
  | a :: as, b :: bs => a == b && leadsWith as bs

/-- `subSeq needle hay`: `needle` occurs contiguously somewhere in `hay`. -/
def subSeq (needle : List Char) : List Char → Bool
  | [] => needle.isEmpty
  | b :: bs => leadsWith needle (b :: bs) || subSeq needle bs

/-- Case-sensitive substring test: Python's `needle in hay` on strings. -/
def containsSub (needle hay : String) : Bool := subSeq needle.data hay.data

/-- `get_bin_color` (`src/app.py` lines 15-23): nested branches on the
infectious flag and a case-sensitive substring check on the waste type.
Python's `str(waste_type)` is the identity on the string values modelled
here; the caller substitutes `""` for a missing `Waste_Type` column. -/
def get_bin_color (infectious : String) (waste_type : String) : String :=
  if infectious == "Yes" then
    if containsSub "Sharps" waste_type then "Red" else "Yellow"
  else
    if containsSub "Recyclable" waste_type then "Blue" else "Black"

/-- `x.get('Waste_Type', '')` (`src/app.py` line 26): the waste-type cell
when the column exists, else the empty string. -/
def rowWasteType (df : DataFrame) (r : Row) : String :=
  if df.hasWasteType then r.wasteType else ""

/-- Lines 25-26 of `src/app.py`: populate `Bin_Color` row-wise, but only when
that column is not already present. -/
def enrichBinColor (df : DataFrame) : DataFrame :=
  if df.hasBinColor then df
  else
    { rows := df.rows.map
        (fun r => { r with binColor := get_bin_color r.infectious (rowWasteType df r) }),
      hasWasteType := df.hasWasteType,
      hasBinColor := true }

/-- The classification decision table exactly as the specification words it:
infectious and type contains "Sharps" → Red; infectious otherwise → Yellow;
non-infectious and type contains "Recyclable" → Blue; otherwise Black; a
missing `Waste_Type` is treated as the empty string. -/
def binColorTable (infectious : String) (wasteType : Option String) : String :=
  let wt := wasteType.getD ""
  if infectious = "Yes" ∧ containsSub "Sharps" wt = true then "Red"
  else if infectious = "Yes" then "Yellow"
  else if infectious ≠ "Yes" ∧ containsSub "Recyclable" wt = true then "Blue"
  else "Black"

/-! ## Filter engine (`src/app.py` lines 35-58) -/

/-- The canonical month names, `month_order` (`src/app.py` lines 35-38). -/
def month_order : List String :=
  ["January", "February", "March", "April", "May", "June",
   "July", "August", "September", "October", "November", "December"]

/-- `available_months` (`src/app.py` line 39): canonical month names that
occur in the data, in canonical order. -/
def available_months (rows : List Row) : List String :=
  month_order.filter (fun m => (rows.map Row.month).contains m)

/-- `df["Department"].unique()` (`src/app.py` lines 50-51): the distinct
department values in first-occurrence order. -/
def departments_unique (rows : List Row) : List String :=
  uniqueList (rows.map Row.department)

/-- The filter mask (`src/app.py` lines 54-58): keep rows whose `Month` is in
the selected month set and whose `Department` is in the selected department
set. -/
def filterRecords (selMonths selDepts : List String) (rows : List Row) : List Row :=
  rows.filter (fun r => selMonths.contains r.month && selDepts.contains r.department)

/-! ## Aggregator (`src/app.py` lines 72-75, 95, 107, 118, 132, 142) -/

/-- `filtered_df["Weight_kg"].sum()` (`src/app.py` line 72). -/
def total_waste (rows : List Row) : ℚ := (rows.map Row.weight).sum

/-- `filtered_df[filtered_df["Infectious"] == "Yes"]["Weight_kg"].sum()`
(`src/app.py` line 73). -/
def infectious_waste (rows : List Row) : ℚ :=
  ((rows.filter (fun r => r.infectious == "Yes")).map Row.weight).sum

/-- `filtered_df["Weight_kg"].mean()` (`src/app.py` line 74); pandas yields
NaN on an empty column, modelled as `none`. -/
def avg_daily (rows : List Row) : Option ℚ :=
  if rows.isEmpty then none
  else some ((rows.map Row.weight).sum / rows.length)

/-- `filtered_df["Weight_kg"].max()` (`src/app.py` line 75); pandas yields
NaN on an empty column, modelled as `none`. -/
def max_waste (rows : List Row) : Option ℚ := (rows.map Row.weight).max?

/-- `rows.groupby(key)["Weight_kg"].sum()`: one pair per distinct key value,
keys in sorted order (pandas `groupby` sorts group keys), each paired with
the sum of `Weight_kg` over the rows carrying that key. -/
def groupSums {α : Type} [DecidableEq α] (le : α → α → Bool) (key : Row → α)
    (rows : List Row) : List (α × ℚ) :=
  (sortLe le (uniqueList (rows.map key))).map
    (fun k => (k, ((rows.filter (fun r => decide (key r = k))).map Row.weight).sum))

/-- `dept_group` (`src/app.py` line 95): weight by department, re-sorted
ascending by the summed weight. -/
def dept_group (rows : List Row) : List (String × ℚ) :=
  sortLe (fun a b => decide (a.2 ≤ b.2)) (groupSums strLe Row.department rows)

/-- `type_group` (`src/app.py` line 107): weight by waste type, sorted
descending by the summed weight. -/
def type_group (rows : List Row) : List (String × ℚ) :=
  sortLe (fun a b => decide (b.2 ≤ a.2)) (groupSums strLe Row.wasteType rows)

/-- `bin_group` (`src/app.py` line 118): weight by bin color. -/
def bin_group (rows : List Row) : List (String × ℚ) :=
  groupSums strLe Row.binColor rows

/-- Lexicographic order on (department, infectious) pairs, the key order of
the two-column `groupby` at `src/app.py` line 132. -/
def pairLe (a b : String × String) : Bool :=
  if a.1 = b.1 then strLe a.2 b.2 else strLe a.1 b.1

/-- `grouped_df` (`src/app.py` line 132): weight by department × infectious. -/
def grouped_df (rows : List Row) : List ((String × String) × ℚ) :=
  groupSums pairLe (fun r => (r.department, r.infectious)) rows

/-- `trend_data` (`src/app.py` line 142): weight by date, dates ascending. -/
def trend_data (rows : List Row) : List (Nat × ℚ) :=
  groupSums (fun a b => a.ble b) Row.date rows

/-- The pie-chart aggregation of weight by the infectious flag
(`src/app.py` lines 88-90; `px.pie` sums `values` per `names` category). -/
def infectiousPie (rows : List Row) : List (String × ℚ) :=
  groupSums strLe Row.infectious rows

/-! ## KPI display formatting (`src/app.py` lines 78-81) -/

/-- Left-pad a digit string with zeros to width `w`. -/
def padZeros (w : Nat) (s : String) : String :=
  String.mk (List.replicate (w - s.length) '0') ++ s

/-- Decimal rendering of a natural number with thousands separators, as
Python's `,` format flag produces. -/
def natCommas (n : Nat) : String :=
  String.mk (go n.repr.data.reverse).reverse
where
  go : List Char → List Char
    | c1 :: c2 :: c3 :: c4 :: rest => c1 :: c2 :: c3 :: ',' :: go (c4 :: rest)
    | l => l

/-- Python's fixed-point format `f"{q:,.prec}"` on an exact rational:
round to `prec` decimal places (half away from zero), group the integer part
with commas. -/
def fmtFixed (prec : Nat) (q : ℚ) : String :=
  let scale := 10 ^ prec
  let n : Nat := (q.num.natAbs * scale * 2 + q.den) / (2 * q.den)
  (if q.num < 0 ∧ n ≠ 0 then "-" else "")
    ++ natCommas (n / scale)
    ++ (if prec = 0 then "" else "." ++ padZeros prec (n % scale).repr)

/-- Python's fixed-point format applied to a possibly-NaN value: float NaN
renders as `"nan"`. -/
def fmtOpt (prec : Nat) : Option ℚ → String
  | none => "nan"
  | some q => fmtFixed prec q

/-- The "Total Waste Volume" metric string (`src/app.py` line 78). -/
def kpiTotal (rows : List Row) : String := fmtFixed 1 (total_waste rows) ++ " kg"

/-- The "Infectious Waste" metric string (`src/app.py` line 79). -/
def kpiInfectious (rows : List Row) : String :=
  fmtFixed 1 (infectious_waste rows) ++ " kg"

/-- The "Avg. Daily Output" metric string (`src/app.py` line 80). -/
def kpiAvg (rows : List Row) : String := fmtOpt 2 (avg_daily rows) ++ " kg"

/-- The "Max Recorded Spike" metric string (`src/app.py` line 81). -/
def kpiMax (rows : List Row) : String := fmtOpt 2 (max_waste rows) ++ " kg"

/-! ## CSV export (`src/app.py` lines 151-157) -/

/-- Decimal rendering of an integer. -/
def intRepr (i : ℤ) : String :=
  (if i < 0 then "-" else "") ++ i.natAbs.repr

/-- Rendering of a rational cell value. Exact integers print as such; the
textual shape of non-integer numerals is abstracted as `num/den`. -/
def ratRepr (q : ℚ) : String :=
  if q.den = 1 then intRepr q.num else intRepr q.num ++ "/" ++ q.den.repr

/-- Quote a CSV field when it holds a comma, quote or newline, doubling
embedded quotes, as `to_csv` does. -/
def csvField (s : String) : String :=
  if s.data.any (fun c => c == ',' || c == '"' || c == '\n') then
    "\"" ++ String.mk (s.data.foldr
      (fun c acc => if c == '"' then '"' :: '"' :: acc else c :: acc) []) ++ "\""
  else s

/-- One CSV line: comma-joined quoted fields, newline-terminated. -/
def csvLine (fields : List String) : String :=
  String.intercalate "," (fields.map csvField) ++ "\n"

/-- The column headers of the enriched dataframe, in order; the optional
columns appear only when present. -/
def csvHeader (df : DataFrame) : List String :=
  ["Date", "Department", "Weight_kg", "Infectious"]
    ++ (if df.hasWasteType then ["Waste_Type"] else [])
    ++ ["Month"]
    ++ (if df.hasBinColor then ["Bin_Color"] else [])

/-- The cell values of one row, in header order. -/
def csvRecord (df : DataFrame) (r : Row) : List String :=
  [r.date.repr, r.department, ratRepr r.weight, r.infectious]
    ++ (if df.hasWasteType then [r.wasteType] else [])
    ++ [r.month]
    ++ (if df.hasBinColor then [r.binColor] else [])

/-- `rows.to_csv(index=...)` (`src/app.py` line 151): header line then one
line per row; with `index = true` pandas adds a leading positional-index
column, with `index = false` it does not. -/
def to_csv (index : Bool) (df : DataFrame) (rows : List Row) : String :=
  csvLine ((if index then [""] else []) ++ csvHeader df)
    ++ String.join (rows.enum.map
        (fun p => csvLine ((if index then [p.1.repr] else []) ++ csvRecord df p.2)))

/-! ## Presentation layer (`src/app.py` lines 60-157) -/

/-- One rendered element of the dashboard page, carrying the aggregated data
it is drawn from. -/
inductive View
  | metrics (totalStr infectiousStr avgStr maxStr : String)
  | pieInfectious (groups : List (String × ℚ))
  | barByDepartment (groups : List (String × ℚ))
  | barByWasteType (groups : List (String × ℚ))
  | warnMissingWasteType
  | pieByBinColor (groups : List (String × ℚ))
  | barDeptInfectious (groups : List ((String × String) × ℚ))
  | areaTrend (points : List (Nat × ℚ))
  | rawTable (rows : List Row)
  | downloadCsv (data : ByteArray) (fileName : String)

/-- The dashboard page (`src/app.py` lines 54-157): filter the dataset by the
selections, then render, in order, the KPI block, the infectious-ratio pie,
the by-department bar, the by-waste-type bar (degraded to a warning when the
`Waste_Type` column is missing, lines 106-113), the bin-color pie (rendered
only when the `Bin_Color` column is present, line 117), the
department × infectious grouped bar, the daily-trend area chart, the raw-data
table and the CSV download button. -/
def renderPage (df : DataFrame) (selMonths selDepts : List String) : List View :=
  let f := filterRecords selMonths selDepts df.rows
  [View.metrics (kpiTotal f) (kpiInfectious f) (kpiAvg f) (kpiMax f),
   View.pieInfectious (infectiousPie f),
   View.barByDepartment (dept_group f),
   if df.hasWasteType then View.barByWasteType (type_group f)
   else View.warnMissingWasteType]
    ++ (if df.hasBinColor then [View.pieByBinColor (bin_group f)] else [])
    ++ [View.barDeptInfectious (grouped_df f),
        View.areaTrend (trend_data f),
        View.rawTable f,
        View.downloadCsv (to_csv false df f).toUTF8 "hospital_waste_audit_data.csv"]

/-! ## Concrete sample data, used to instantiate the theorems below -/

/-- The spec's worked example record (March 5, ICU, 12.5 kg, infectious
sharps), before enrichment. -/
def sampleRow : Row :=
  { date := 5, department := "ICU", weight := 12, infectious := "Yes",
    wasteType := "Sharps Container", month := "March", binColor := "" }

/-- A single-record dataframe with a `Waste_Type` column and no `Bin_Color`
column. -/
def sampleDF : DataFrame :=
  { rows := [sampleRow], hasWasteType := true, hasBinColor := false }

/-- `sampleRow` after classification. -/
def sampleEnrichedRow : Row := { sampleRow with binColor := "Red" }

/-- An already-enriched single-record dataframe. -/
def sampleEnrichedDF : DataFrame :=
  { rows := [sampleEnrichedRow], hasWasteType := true, hasBinColor := true }

/-- A non-infectious record with a lower-case infectious flag. -/
def sampleLowerRow : Row :=
  { date := 6, department := "ER", weight := 3, infectious := "no",
    wasteType := "Recyclable Plastic", month := "April", binColor := "" }

/-- A February ICU record: filtering for January ICU records misses it. -/
def sampleFebRow : Row :=
  { date := 36, department := "ICU", weight := 7, infectious := "No",
    wasteType := "General", month := "February", binColor := "Black" }

/-- Dataframe for the empty-filter scenario of the spec's example. -/
def sampleFebDF : DataFrame :=
  { rows := [sampleFebRow], hasWasteType := true, hasBinColor := true }

/-- A dataframe whose `Waste_Type` column is missing. -/
def sampleNoTypeDF : DataFrame :=
  { rows := [{ date := 9, department := "ICU", weight := 4, infectious := "Yes",
               wasteType := "", month := "May", binColor := "" }],
    hasWasteType := false, hasBinColor := false }

/-! ## Classifier theorems -/

theorem get_bin_color_eq_table (inf : String) (wt : Option String) :
    get_bin_color inf (wt.getD "") = binColorTable inf wt := by
  unfold get_bin_color binColorTable
  by_cases hin : inf = "Yes"
  · by_cases hsh : containsSub "Sharps" (wt.getD "") = true
    · simp [hin, hsh]
    · simp [hin, hsh]
  · by_cases hrc : containsSub "Recyclable" (wt.getD "") = true
    · simp [hin, hrc]
    · simp [hin, hrc]

/-- C1: for every record of an enriched dataframe, the derived `Bin_Color` is
exactly the value of the specification's classification decision table:
infectious + "Sharps" substring → Red; infectious otherwise → Yellow;
non-infectious + "Recyclable" substring → Blue; otherwise Black; a missing
`Waste_Type` column is treated as the empty string. -/
theorem c1_bin_color_is_decision_table (df : DataFrame) (r : Row)
    (h : df.hasBinColor = false) (hr : r ∈ (enrichBinColor df).rows) :
    r.binColor = binColorTable r.infectious
      (if df.hasWasteType then some r.wasteType else none) := by
  unfold enrichBinColor at hr
  rw [h] at hr
  simp only [Bool.false_eq_true, if_false] at hr
  obtain ⟨r0, hr0, rfl⟩ := List.mem_map.1 hr
  show get_bin_color r0.infectious (rowWasteType df r0)
      = binColorTable r0.infectious (if df.hasWasteType then some r0.wasteType else none)
  unfold rowWasteType
  cases hw : df.hasWasteType
  · simpa using get_bin_color_eq_table r0.infectious none
  · simpa using get_bin_color_eq_table r0.infectious (some r0.wasteType)

/-- Witness for C1 at the spec's worked example: the enriched March ICU
sharps record is classified Red, matching the decision table. -/
theorem c1_witness :
    sampleEnrichedRow.binColor
      = binColorTable sampleEnrichedRow.infectious
          (if sampleDF.hasWasteType then some sampleEnrichedRow.wasteType else none) :=
  c1_bin_color_is_decision_table sampleDF sampleEnrichedRow rfl (by decide)

/-- C7: the classifier is total and deterministic: it is a function, and every
(infectious, waste_type) string pair maps to one of Red, Yellow, Blue,
Black. -/
theorem c7_classifier_total (inf wt : String) :
    get_bin_color inf wt = "Red" ∨ get_bin_color inf wt = "Yellow"
      ∨ get_bin_color inf wt = "Blue" ∨ get_bin_color inf wt = "Black" := by
  unfold get_bin_color
  by_cases hin : (inf == "Yes") = true
  · by_cases h2 : containsSub "Sharps" wt = true
    · left; simp [hin, h2]
    · right; left; simp [hin, h2]
  · by_cases h2 : containsSub "Recyclable" wt = true
    · right; right; left; simp [hin, h2]
    · right; right; right; simp [hin, h2]

/-- C10: only the exact string "Yes" counts as infectious: any other
infectious value takes the non-infectious classifier branch (Blue or Black),
and such a record's weight is excluded from the infectious-waste KPI sum. -/
theorem c10_only_exact_yes_is_infectious (inf wt : String) (r : Row)
    (rows : List Row) (h1 : inf ≠ "Yes") (h2 : r.infectious ≠ "Yes") :
    (get_bin_color inf wt = "Blue" ∨ get_bin_color inf wt = "Black")
      ∧ infectious_waste (r :: rows) = infectious_waste rows := by
  constructor
  · unfold get_bin_color
    by_cases hrc : containsSub "Recyclable" wt = true
    · left; simp [h1, hrc]
    · right; simp [h1, hrc]
  · simp [infectious_waste, h2]

/-- Witness for C10: the flag "no" (lower case) classifies Blue for a
recyclable type, and the lower-case record contributes nothing to the
infectious KPI. -/
theorem c10_witness :
    (get_bin_color "no" "Recyclable Plastic" = "Blue"
        ∨ get_bin_color "no" "Recyclable Plastic" = "Black")
      ∧ infectious_waste [sampleLowerRow] = infectious_waste [] :=
  c10_only_exact_yes_is_infectious "no" "Recyclable Plastic" sampleLowerRow []
    (by decide) (by decide)

/-! ## Enrichment idempotence -/

theorem enrich_of_present (df : DataFrame) (h : df.hasBinColor = true) :
    enrichBinColor df = df := by
  unfold enrichBinColor
  rw [if_pos h]

theorem enrich_flag (df : DataFrame) : (enrichBinColor df).hasBinColor = true := by
  unfold enrichBinColor
  by_cases hb : df.hasBinColor = true
  · rw [if_pos hb]; exact hb
  · rw [if_neg hb]

/-- C5: enrichment populates `Bin_Color` only when the column is absent, so a
second enrichment pass is a no-op: it leaves an already-enriched dataframe,
and in particular every `Bin_Color` value, unchanged. -/
theorem c5_enrichment_idempotent (df dfe : DataFrame)
    (h : dfe.hasBinColor = true) :
    enrichBinColor (enrichBinColor df) = enrichBinColor df
      ∧ enrichBinColor dfe = dfe :=
  ⟨enrich_of_present _ (enrich_flag df), enrich_of_present dfe h⟩

/-- Witness for C5 on the concrete sample dataframes. -/
theorem c5_witness :
    enrichBinColor (enrichBinColor sampleDF) = enrichBinColor sampleDF
      ∧ enrichBinColor sampleEnrichedDF = sampleEnrichedDF :=
  c5_enrichment_idempotent sampleDF sampleEnrichedDF rfl

/-! ## Filter theorems -/

/-- C3: a record is in the filter result iff its month is among the selected
months and its department among the selected departments; an empty selection
on either control yields an empty result, not the unfiltered dataset. -/
theorem c3_filter_mask (M D : List String) (rows : List Row) (r : Row) :
    (r ∈ filterRecords M D rows ↔ r ∈ rows ∧ r.month ∈ M ∧ r.department ∈ D)
      ∧ filterRecords [] D rows = [] ∧ filterRecords M [] rows = [] := by
  refine ⟨?_, by simp [filterRecords], by simp [filterRecords]⟩
  simp [filterRecords, List.mem_filter]

/-- C6: filtering with the default full selections (every canonical month
present in the data and every distinct department) is the identity, and
filtering with an empty selection yields the empty result. The hypothesis
records that every `Month` value is a canonical English month name, which
holds of the loader's `strftime('%B')` derivation. -/
theorem c6_full_selection_identity (rows : List Row) (M D : List String)
    (h : ∀ r ∈ rows, r.month ∈ month_order) :
    filterRecords (available_months rows) (departments_unique rows) rows = rows
      ∧ filterRecords [] D rows = [] ∧ filterRecords M [] rows = [] := by
  refine ⟨?_, by simp [filterRecords], by simp [filterRecords]⟩
  apply List.filter_eq_self.2
  intro r hr
  have h1 : r.month ∈ available_months rows := by
    apply List.mem_filter.2
    refine ⟨h r hr, ?_⟩
    simp only [List.contains_iff_exists_mem_beq]
    exact ⟨r.month, List.mem_map.2 ⟨r, hr, rfl⟩, by simp⟩
  have h2 : r.department ∈ departments_unique rows :=
    mem_uniqueList.2 (List.mem_map.2 ⟨r, hr, rfl⟩)
  rw [Bool.and_eq_true]
  constructor
  · simpa using h1
  · simpa using h2

/-- Witness for C6 on the single-record sample dataframe. -/
theorem c6_witness :
    filterRecords (available_months [sampleRow]) (departments_unique [sampleRow])
        [sampleRow] = [sampleRow]
      ∧ filterRecords [] ["ICU"] [sampleRow] = []
      ∧ filterRecords ["January"] [] [sampleRow] = [] :=
  c6_full_selection_identity [sampleRow] ["January"] ["ICU"] (by decide)

/-! ## Aggregation conservation -/

theorem sum_map_filter_add (p : Row → Bool) (rows : List Row) :
    ((rows.filter p).map Row.weight).sum
      + ((rows.filter (fun r => !(p r))).map Row.weight).sum
      = (rows.map Row.weight).sum := by
  induction rows with
  | nil => simp
  | cons a l ih =>
    cases h : p a <;> simp [List.filter_cons, h] <;> linarith [ih]

theorem groupSums_aux {α : Type} [DecidableEq α] (key : Row → α) :
    ∀ (keys : List α) (rows : List Row), keys.Nodup →
      (∀ r ∈ rows, key r ∈ keys) →
      (keys.map (fun k =>
          ((rows.filter (fun r => decide (key r = k))).map Row.weight).sum)).sum
        = (rows.map Row.weight).sum := by
  intro keys
  induction keys with
  | nil =>
    intro rows _ hcov
    cases rows with
    | nil => simp
    | cons r l => exact absurd (hcov r (List.mem_cons_self r l)) (List.not_mem_nil _)
  | cons k ks ih =>
    intro rows hnd hcov
    obtain ⟨hk, hks⟩ := List.nodup_cons.1 hnd
    have hmap : ∀ k' ∈ ks,
        ((rows.filter (fun r => decide (key r = k'))).map Row.weight).sum
          = (((rows.filter (fun r => !(decide (key r = k)))).filter
              (fun r => decide (key r = k'))).map Row.weight).sum := by
      intro k' hk'
      rw [List.filter_filter]
      congr 1
      apply congrArg
      apply List.filter_congr
      intro r hr
      by_cases h : key r = k'
      · have hne2 : ¬ k' = k := fun hkk => hk (hkk ▸ hk')
        have hne : key r ≠ k := fun hkk => hne2 (h ▸ hkk)
        simp [h, hne, hne2]
      · simp [h]
    have hcov' : ∀ r ∈ rows.filter (fun r => !(decide (key r = k))), key r ∈ ks := by
      intro r hr
      obtain ⟨hrm, hneq⟩ := List.mem_filter.1 hr
      rcases List.mem_cons.1 (hcov r hrm) with h | h
      · exfalso
        revert hneq
        simp [h]
      · exact h
    simp only [List.map_cons, List.sum_cons]
    rw [List.map_congr_left hmap]
    rw [ih (rows.filter (fun r => !(decide (key r = k)))) hks hcov']
    exact sum_map_filter_add (fun r => decide (key r = k)) rows

theorem groupSums_sum {α : Type} [DecidableEq α] (le : α → α → Bool)
    (key : Row → α) (rows : List Row) :
    ((groupSums le key rows).map Prod.snd).sum = (rows.map Row.weight).sum := by
  unfold groupSums
  rw [List.map_map]
  have hperm := (sortLe_perm le (uniqueList (rows.map key))).map
    (fun k => ((rows.filter (fun r => decide (key r = k))).map Row.weight).sum)
  calc ((sortLe le (uniqueList (rows.map key))).map
          (Prod.snd ∘ (fun k =>
            (k, ((rows.filter (fun r => decide (key r = k))).map Row.weight).sum)))).sum
      = ((sortLe le (uniqueList (rows.map key))).map
          (fun k =>
            ((rows.filter (fun r => decide (key r = k))).map Row.weight).sum)).sum := rfl
    _ = ((uniqueList (rows.map key)).map
          (fun k =>
            ((rows.filter (fun r => decide (key r = k))).map Row.weight).sum)).sum :=
        hperm.sum_eq
    _ = (rows.map Row.weight).sum :=
        groupSums_aux key (uniqueList (rows.map key)) rows
          (nodup_uniqueList _)
          (fun r hr => mem_uniqueList.2 (List.mem_map.2 ⟨r, hr, rfl⟩))

/-- C4: for every dataset and filter selection, the sum of the by-department
grouped values equals the Totals KPI total over the same filtered set. -/
theorem c4_department_sums_conserved (rows : List Row) (M D : List String) :
    ((dept_group (filterRecords M D rows)).map Prod.snd).sum
      = total_waste (filterRecords M D rows) := by
  unfold dept_group total_waste
  have hperm := (sortLe_perm (fun a b => decide (a.2 ≤ b.2))
      (groupSums strLe Row.department (filterRecords M D rows))).map Prod.snd
  rw [hperm.sum_eq]
  exact groupSums_sum strLe Row.department (filterRecords M D rows)

/-! ## Empty-filter behaviour of the Totals view -/

/-- Counterexample to C2 as stated: filtering the February-only dataset to
January ICU yields an empty set, and the rendered average string is
`"nan kg"` — the NaN mean is propagated into the display string, which is
neither `"N/A"` nor a zero display. -/
theorem c2_counterexample :
    filterRecords ["January"] ["ICU"] sampleFebDF.rows = []
      ∧ avg_daily (filterRecords ["January"] ["ICU"] sampleFebDF.rows) = none
      ∧ kpiAvg (filterRecords ["January"] ["ICU"] sampleFebDF.rows) = "nan kg"
      ∧ kpiAvg (filterRecords ["January"] ["ICU"] sampleFebDF.rows) ≠ "N/A"
      ∧ kpiAvg (filterRecords ["January"] ["ICU"] sampleFebDF.rows) ≠ "0.00 kg" :=
  ⟨rfl, rfl, rfl, by decide, by decide⟩

/-- C2 (amended): when the filtered dataset is empty the Totals view still
renders (every metric string is defined): the total is 0 and displays as
`"0.0 kg"`, while the mean is NaN (`none`) and its NaN is propagated into the
display string `"nan kg"` rather than being replaced by `"N/A"` or 0. -/
theorem c2_empty_filter_renders (df : DataFrame) (M D : List String)
    (h : filterRecords M D df.rows = []) :
    total_waste (filterRecords M D df.rows) = 0
      ∧ kpiTotal (filterRecords M D df.rows) = "0.0 kg"
      ∧ avg_daily (filterRecords M D df.rows) = none
      ∧ kpiAvg (filterRecords M D df.rows) = "nan kg" := by
  rw [h]
  refine ⟨by simp [total_waste], ?_, rfl, rfl⟩
  have h0 : total_waste ([] : List Row) = 0 := by simp [total_waste]
  unfold kpiTotal
  rw [h0]
  decide

/-- Witness for the amended C2 at the spec's example selection. -/
theorem c2_witness :
    total_waste (filterRecords ["January"] ["ICU"] sampleFebDF.rows) = 0
      ∧ kpiTotal (filterRecords ["January"] ["ICU"] sampleFebDF.rows) = "0.0 kg"
      ∧ avg_daily (filterRecords ["January"] ["ICU"] sampleFebDF.rows) = none
      ∧ kpiAvg (filterRecords ["January"] ["ICU"] sampleFebDF.rows) = "nan kg" :=
  c2_empty_filter_renders sampleFebDF ["January"] ["ICU"] rfl

/-! ## CSV export and page layout -/

theorem enumFrom_map_snd {α β : Type} (g : α → β) (n : Nat) (l : List α) :
    (List.enumFrom n l).map (fun p => g p.2) = l.map g := by
  induction l generalizing n with
  | nil => rfl
  | cons a as ih => simp [List.enumFrom, ih]

/-- C8: the download button offers, under the name
`hospital_waste_audit_data.csv`, the UTF-8 encoding of the CSV of exactly the
filtered rows: a header line with the enriched dataset's columns followed by
one line per filtered record, with no index column. -/
theorem c8_csv_export (df : DataFrame) (M D : List String) :
    (renderPage df M D).getLast?
        = some (View.downloadCsv
            (to_csv false df (filterRecords M D df.rows)).toUTF8
            "hospital_waste_audit_data.csv")
      ∧ to_csv false df (filterRecords M D df.rows)
          = csvLine (csvHeader df)
            ++ String.join ((filterRecords M D df.rows).map
                (fun r => csvLine (csvRecord df r))) := by
  constructor
  · by_cases hb : df.hasBinColor = true <;>
      simp [renderPage, hb, List.getLast?_append, List.getLast?_cons_cons,
        List.getLast?_singleton]
  · unfold to_csv
    simp only [Bool.false_eq_true, if_false, List.nil_append]
    rw [show List.enum (filterRecords M D df.rows)
          = List.enumFrom 0 (filterRecords M D df.rows) from rfl]
    rw [enumFrom_map_snd (fun r => csvLine (csvRecord df r)) 0
          (filterRecords M D df.rows)]

/-- C9: when the `Waste_Type` column is absent from the (enriched) dataset,
the by-waste-type chart degrades to a visible warning, while the KPI block,
infectious-ratio pie, by-department bar, bin-color pie,
department × infectious bar, daily trend, raw table and CSV export are all
still rendered. -/
theorem c9_missing_waste_type_degrades (df : DataFrame) (M D : List String)
    (h : df.hasWasteType = false) :
    View.warnMissingWasteType ∈ renderPage (enrichBinColor df) M D
      ∧ View.metrics
          (kpiTotal (filterRecords M D (enrichBinColor df).rows))
          (kpiInfectious (filterRecords M D (enrichBinColor df).rows))
          (kpiAvg (filterRecords M D (enrichBinColor df).rows))
          (kpiMax (filterRecords M D (enrichBinColor df).rows))
          ∈ renderPage (enrichBinColor df) M D
      ∧ View.pieInfectious
          (infectiousPie (filterRecords M D (enrichBinColor df).rows))
          ∈ renderPage (enrichBinColor df) M D
      ∧ View.barByDepartment
          (dept_group (filterRecords M D (enrichBinColor df).rows))
          ∈ renderPage (enrichBinColor df) M D
      ∧ View.pieByBinColor
          (bin_group (filterRecords M D (enrichBinColor df).rows))
          ∈ renderPage (enrichBinColor df) M D
      ∧ View.barDeptInfectious
          (grouped_df (filterRecords M D (enrichBinColor df).rows))
          ∈ renderPage (enrichBinColor df) M D
      ∧ View.areaTrend
          (trend_data (filterRecords M D (enrichBinColor df).rows))
          ∈ renderPage (enrichBinColor df) M D
      ∧ View.rawTable (filterRecords M D (enrichBinColor df).rows)
          ∈ renderPage (enrichBinColor df) M D
      ∧ View.downloadCsv
          (to_csv false (enrichBinColor df)
            (filterRecords M D (enrichBinColor df).rows)).toUTF8
          "hospital_waste_audit_data.csv"
          ∈ renderPage (enrichBinColor df) M D := by
  have hw : (enrichBinColor df).hasWasteType = false := by
    unfold enrichBinColor
    by_cases hb : df.hasBinColor = true
    · rw [if_pos hb]; exact h
    · rw [if_neg hb]; exact h
  have hbc : (enrichBinColor df).hasBinColor = true := enrich_flag df
  refine ⟨?_, ?_, ?_, ?_, ?_, ?_, ?_, ?_, ?_⟩ <;>
    simp [renderPage, hw, hbc]

/-- Witness for C9 on a dataframe lacking the `Waste_Type` column. -/
theorem c9_witness :
    View.warnMissingWasteType
      ∈ renderPage (enrichBinColor sampleNoTypeDF) ["May"] ["ICU"] :=
  (c9_missing_waste_type_degrades sampleNoTypeDF ["May"] ["ICU"] rfl).1
